import Mathlib

/-!
Shallow embedding of the query-coordination pipeline and per-agent retrieval
store of the henry-capstone ("Nexus-Mind") repository, together with proofs of
the behavioural properties claimed for it.

The embedding follows the Python sources:
  * `src/server/utils/vector_store.py`  (VectorStoreManager)
  * `src/server/agents/specialist.py`   (SpecialistAgent.generate_response)
  * `src/server/agents/auditor.py`      (AuditorAgent.audit_response)
  * `src/server/agents/coordinator.py`  (Coordinator.process_query)
  * `src/server/api/routes/files.py`    (upload_file_to_agent)

External collaborators (the Chroma vector index's similarity search, the
langchain text loader/splitter, the LLM completion service, the SQL
persistence layer) are black boxes in the sources; they appear here as
function parameters, constrained only where the sources' own documentation
constrains them. Python exceptions are modelled with `Except`; Python string
truthiness (`if agent_id:`) is modelled explicitly.
-/

namespace NexusMind

/-- Python truthiness of an optional string: `None` and `""` are falsy. -/
def pyTruthyStr : Option String → Bool
  | none => false
  | some s => s ≠ ""

/-- `UserQuery` from `models/schemas.py` as used by the pipeline
(`query_text`, `user_role`). -/
structure UserQuery where
  query_text : String
  user_role : String
deriving DecidableEq, Repr

/-- `RoutingDecision`: the dispatcher's structured output. The coordinator
reads `agent_id` and `agent_name`; the specialist reads `department`. -/
structure RoutingDecision where
  agent_id : Option String
  agent_name : String
  department : String
  confidence : ℚ
  reasoning : String
deriving DecidableEq, Repr

/-- `AgentResponse`: the specialist's draft answer with source attribution. -/
structure AgentResponse where
  answer : String
  sources : List String
  agent_name : String
deriving DecidableEq, Repr

/-- `AuditResult`: the auditor's structured verdict. -/
structure AuditResult where
  is_safe : Bool
  final_answer : String
  feedback : Option String
deriving DecidableEq, Repr

/-- A document chunk held in a Chroma collection. `source` is the metadata set
by the langchain `TextLoader` (the filepath the loader was given; the loader
always sets it); `file_id` and `source_file` are the tracking metadata that
`VectorStoreManager.ingest_file` adds before insertion (absent on chunks
ingested without a file id). -/
structure Chunk where
  text : String
  source : String
  file_id : Option String
  source_file : Option String
deriving DecidableEq, Repr

/-- The state of the Chroma backend: contents of every named collection. -/
abbrev Store := String → List Chunk

/-- The error taxonomy of the spec (plus the `FileNotFoundError` the store
raises for a missing path). -/
inductive Err where
  | storeUnavailable
  | fileNotFound
  | emptyDocument
  | routingFailure
  | generationFailure
  | retrievalUnavailable
  | auditFailure
deriving DecidableEq, Repr

/-- `VectorStoreManager.__init__`: the manager is bound to one collection name
computed once from the optional agent id. `clientConnected` records whether
the `chromadb.HttpClient` handshake succeeded (`self.client is not None`). -/
structure VectorStoreManager where
  agent_id : Option String
  data_path : String
  collection_name : String
  clientConnected : Bool
deriving DecidableEq, Repr

/-- Constructor of `VectorStoreManager`:
`self.collection_name = f"agent_\x7bagent_id\x7d" if agent_id else "nexus_mind_docs"`. -/
def VectorStoreManager.create (agent_id : Option String) (clientConnected : Bool) :
    VectorStoreManager :=
  { agent_id := agent_id
    data_path := "data"
    collection_name :=
      if pyTruthyStr agent_id then "agent_" ++ agent_id.getD "" else "nexus_mind_docs"
    clientConnected := clientConnected }

/-- `RecursiveCharacterTextSplitter(chunk_size=1000, ...)` argument. -/
def CHUNK_SIZE : Nat := 1000

/-- `RecursiveCharacterTextSplitter(..., chunk_overlap=200)` argument. -/
def CHUNK_OVERLAP : Nat := 200

/-- `os.path.basename` for slash-separated paths. -/
def os_path_basename (p : String) : String :=
  (p.splitOn "/").getLastD ""

/-- The metadata update applied to every split inside `ingest_file`:
`doc.metadata["file_id"] = file_id; doc.metadata["source_file"] =
os.path.basename(filepath)`. -/
def tagChunk (file_id : String) (filepath : String) (c : Chunk) : Chunk :=
  { c with file_id := some file_id, source_file := some (os_path_basename filepath) }

/-- `VectorStoreManager.ingest_file(filepath, file_id)`.
`loader` stands for `TextLoader(filepath).load()` and `splitter` for
`RecursiveCharacterTextSplitter(chunk_size, chunk_overlap).split_documents`,
both external langchain collaborators. Raising is modelled with `.error`;
the early `return` on an empty load (which returns Python `None`) is
`.ok none`; a completed ingestion returns `.ok (some chunkCount)`. -/
def ingest_file (loader : String → List Chunk)
    (splitter : Nat → Nat → List Chunk → List Chunk)
    (m : VectorStoreManager) (s : Store) (filepath : String) (fileExists : Bool)
    (file_id : Option String) : Except Err (Option Nat) × Store :=
  if m.clientConnected then
    if fileExists then
      if (loader filepath).isEmpty then (.ok none, s)
      else
        (.ok (some (splitter CHUNK_SIZE CHUNK_OVERLAP (loader filepath)).length),
          fun n =>
            if n = m.collection_name then
              s m.collection_name ++
                (if pyTruthyStr file_id then
                  (splitter CHUNK_SIZE CHUNK_OVERLAP (loader filepath)).map
                    (tagChunk (file_id.getD "") filepath)
                else splitter CHUNK_SIZE CHUNK_OVERLAP (loader filepath))
            else s n)
    else (.error .fileNotFound, s)
  else (.error .storeUnavailable, s)

/-- `VectorStoreManager.delete_file(file_id)`: fetches the ids of the chunks of
the bound collection whose `file_id` metadata equals the argument, deletes
exactly those, and returns how many there were (0, with no change, when none
matched). -/
def delete_file (m : VectorStoreManager) (s : Store) (file_id : String) :
    Except Err Nat × Store :=
  if m.clientConnected then
    if ((s m.collection_name).filter (fun c => decide (c.file_id = some file_id))).isEmpty then
      (.ok 0, s)
    else
      (.ok ((s m.collection_name).filter (fun c => decide (c.file_id = some file_id))).length,
        fun n =>
          if n = m.collection_name then
            (s m.collection_name).filter (fun c => !decide (c.file_id = some file_id))
          else s n)
  else (.error .storeUnavailable, s)

/-- `get_retriever` (k = 3) composed with the retriever invocation inside the
specialist's rag chain. `search` is the Chroma similarity-search black box; it
is only ever applied to the contents of the manager's own collection. -/
def retrieve (search : List Chunk → String → Nat → List Chunk)
    (m : VectorStoreManager) (s : Store) (q : String) : Except Err (List Chunk) :=
  if m.clientConnected then .ok (search (s m.collection_name) q 3)
  else .error .storeUnavailable

/-- `SpecialistAgent.generate_response(query, routing, agent_id)`.
`agentPromptOf` stands for the SQL lookup of the agent's `system_prompt`
(`none` when the agent row is missing or its prompt is empty), `llm` for the
completion service. The sources are computed exactly as in the Python:
`sources = [doc.metadata.get("source", "unknown") for doc in context]`
(the loader always sets `source`, so the chunk field is total here), then
`unique_sources = list(set(sources))`, rendered as `List.dedup`. -/
def generate_response (search : List Chunk → String → Nat → List Chunk)
    (agentPromptOf : String → Option String) (llm : String → String → String)
    (s : Store) (conn : Bool) (q : UserQuery) (routing : RoutingDecision)
    (agent_id : Option String) : Except Err AgentResponse :=
  if conn then
    .ok { answer :=
            llm (if pyTruthyStr agent_id then
                  match agentPromptOf (agent_id.getD "") with
                  | some p => p ++ "\n\n{context}"
                  | none => "You are a helpful assistant.\n\n{context}"
                else "You are a helpful assistant.\n\n{context}")
              q.query_text
          sources :=
            ((search
                (s (VectorStoreManager.create
                      (if pyTruthyStr agent_id then agent_id else none) conn).collection_name)
                q.query_text 3).map (fun c => c.source)).dedup
          agent_name := routing.department ++ "_Specialist" }
  else .error .storeUnavailable

/-- Modelled from the spec: the pydantic validation constraints of the
`AuditResult` schema (the file `src/server/models/schemas.py` is not among the
sources; only its import sites are). Spec §3 and §4.4: `final_answer` is
always populated — when `is_safe` is true it echoes (or is) the original
draft, when false it is the rewritten replacement and `feedback` explains
what was wrong. -/
def auditWellFormed (draft : String) (r : AuditResult) : Bool :=
  (!(r.final_answer == "")) &&
    (if r.is_safe then r.final_answer == draft else r.feedback.isSome)

/-- `AuditorAgent.audit_response(query, agent_response)`: invokes the
completion service with structured output on the query text and the draft
answer. `completion qt draft = none` models output that cannot be parsed into
the schema at all; a parsed value that violates the schema's validation is
equally a structured-output failure. Either failure raises, modelled as
`.error .auditFailure`. -/
def audit_response (completion : String → String → Option AuditResult)
    (q : UserQuery) (agent_response : AgentResponse) : Except Err AuditResult :=
  match completion q.query_text agent_response.answer with
  | none => .error .auditFailure
  | some r => if auditWellFormed agent_response.answer r then .ok r else .error .auditFailure

/-- The fixed advisory returned when the agent roster is empty
(`coordinator.py` line 49). -/
def NO_AGENTS_MESSAGE : String :=
  "No agents are available. Please create at least one agent in the Settings page to get started."

/-- The dictionary `process_query` returns. -/
structure QueryResult where
  final_answer : String
  agent_name : String
  sources : List String
deriving DecidableEq, Repr

/-- The three model-backed stages the coordinator can invoke, in order. -/
inductive StageCall where
  | router
  | specialist
  | auditor
deriving DecidableEq, Repr

/-- `Coordinator.process_query(query_text, user_role, agent_id)`.
`agentCount` is the roster cardinality read from the database; `route`,
`draftFn` and `audit` are the dispatcher, specialist and auditor stages (each
a single blocking call whose exception aborts the pipeline). The returned
trace lists which of the three stages were invoked. The caller-supplied
`agent_id` is only logged by the Python; the specialist is invoked with
`agent_id=routing.agent_id` (line 78). -/
def process_query (agentCount : Nat)
    (route : UserQuery → Except Err RoutingDecision)
    (draftFn : UserQuery → RoutingDecision → Option String → Except Err AgentResponse)
    (audit : UserQuery → AgentResponse → Except Err AuditResult)
    (query_text : String) (user_role : String) (agent_id : Option String) :
    Except Err QueryResult × List StageCall :=
  let query : UserQuery := { query_text := query_text, user_role := user_role }
  if agentCount = 0 then
    (.ok { final_answer := NO_AGENTS_MESSAGE, agent_name := "System", sources := [] }, [])
  else
    match route query with
    | .error e => (.error e, [.router])
    | .ok routing =>
      match draftFn query routing routing.agent_id with
      | .error e => (.error e, [.router, .specialist])
      | .ok agent_response =>
        match audit query agent_response with
        | .error e => (.error e, [.router, .specialist, .auditor])
        | .ok audit_result =>
          (.ok { final_answer := audit_result.final_answer
                 agent_name := routing.agent_name
                 sources := agent_response.sources },
           [.router, .specialist, .auditor])

/-- A row of the `files` table. -/
structure FileRecord where
  id : String
  name : String
  filepath : String
  size : Nat
  agent_id : String
deriving DecidableEq, Repr

/-- The `FileResponse` body returned by the upload endpoint (the timestamp is
omitted: it is produced by the database collaborator). -/
structure FileResponseM where
  id : String
  name : String
  size : Nat
deriving DecidableEq, Repr

/-- HTTP-level failures of the upload route. -/
inductive HttpErr where
  | badRequest
  | notFound
  | internal
deriving DecidableEq, Repr

/-- Database rows plus vector-store contents, the state the upload route acts on. -/
structure UploadState where
  dbFiles : List FileRecord
  store : Store

/-- `UPLOAD_DIR` of `files.py`. -/
def UPLOAD_DIR : String := "data/uploads"

/-- `upload_file_to_agent` (`files.py` lines 72-180), from the agent-existence
check onward. `validated` is the outcome of `validate_file` (`none` for a
`ValidatorError`); `file_id` the generated uuid. The file is saved, the row is
committed, and then ingestion runs inside `try/except`: an ingestion failure
is logged and swallowed, and the endpoint still returns the recorded file. -/
def upload_file_to_agent (loader : String → List Chunk)
    (splitter : Nat → Nat → List Chunk → List Chunk) (conn : Bool)
    (agentExists : Bool) (validated : Option (String × Nat))
    (file_id : String) (agent_id : String) (st : UploadState) :
    Except HttpErr FileResponseM × UploadState :=
  if agentExists = false then (.error .notFound, st)
  else
    match validated with
    | none => (.error .badRequest, st)
    | some (safe_filename, file_size) =>
      let filepath := UPLOAD_DIR ++ "/" ++ file_id ++ "_" ++ safe_filename
      let record : FileRecord :=
        { id := file_id, name := safe_filename, filepath := filepath,
          size := file_size, agent_id := agent_id }
      let dbFiles := st.dbFiles ++ [record]
      let vsm := VectorStoreManager.create (some agent_id) conn
      let ingestOut := ingest_file loader splitter vsm st.store filepath true (some file_id)
      (.ok { id := file_id, name := safe_filename, size := file_size },
        { dbFiles := dbFiles, store := ingestOut.2 })

/-! Concrete collaborator instances, used to run the defined operations on
closed inputs. -/

/-- A similarity search returning the first k chunks of the collection. -/
def takeSearch : List Chunk → String → Nat → List Chunk := fun cs _ k => cs.take k

/-- A loader producing one single-chunk document for any path. -/
def witLoader : String → List Chunk :=
  fun p => [{ text := "hello", source := p, file_id := none, source_file := none }]

/-- A loader that finds no extractable text in any file. -/
def emptyLoader : String → List Chunk := fun _ => []

/-- A splitter that keeps each loaded document as a single chunk. -/
def witSplitter : Nat → Nat → List Chunk → List Chunk := fun _ _ ds => ds

/-- A store whose collections are all empty. -/
def emptyStore : Store := fun _ => []

/-- A chunk as produced by uploading `doc.txt` under file id `u1`: the loader
metadata `source` holds the stored path, while the ingestion tag
`source_file` holds the original filename. -/
def leakChunk : Chunk :=
  { text := "vacation policy text", source := "data/uploads/u1_doc.txt",
    file_id := some "u1", source_file := some "doc.txt" }

/-- A store whose every collection holds exactly `leakChunk`. -/
def oneChunkStore : Store := fun _ => [leakChunk]

/-- A routing decision selecting the HR agent. -/
def routingHR : RoutingDecision :=
  { agent_id := some "h1", agent_name := "HR", department := "HR",
    confidence := 1, reasoning := "HR question" }

/-- A completion service returning a fixed answer text. -/
def constLLM : String → String → String := fun _ _ => "answer"

/-- An agent-prompt lookup that finds no stored prompt. -/
def noPrompt : String → Option String := fun _ => none

/-- A draft response used to drive the audit stage. -/
def draftResp : AgentResponse :=
  { answer := "draft", sources := [], agent_name := "HR_Specialist" }

/-- A router stage that always selects `routingHR`. -/
def routeW : UserQuery → Except Err RoutingDecision := fun _ => .ok routingHR

/-- A specialist stage that always returns `draftResp`. -/
def draftW : UserQuery → RoutingDecision → Option String → Except Err AgentResponse :=
  fun _ _ _ => .ok draftResp

/-- A completion service whose structured audit output never parses. -/
def noneCompletion : String → String → Option AuditResult := fun _ _ => none

/-- A completion service that approves the draft unchanged. -/
def okCompletion : String → String → Option AuditResult :=
  fun _ draft => some { is_safe := true, final_answer := draft, feedback := none }

end NexusMind

namespace NexusMind

/-! ## Helper lemmas -/

theorem filter_not_eq_self_of_filter_eq_nil {α : Type _} (p : α → Bool) (l : List α)
    (h : l.filter p = []) : l.filter (fun x => !p x) = l := by
  rw [List.filter_eq_self]
  intro a ha
  simp only [Bool.not_eq_true']
  by_contra hp
  have : a ∈ l.filter p := List.mem_filter.mpr ⟨ha, by simpa using hp⟩
  simp [h] at this

theorem filter_of_filter_not_eq_nil {α : Type _} (p : α → Bool) (l : List α) :
    (l.filter (fun x => !p x)).filter p = [] := by
  rw [List.filter_eq_nil_iff]
  intro a ha
  have := List.mem_filter.mp ha
  simpa using this.2

/-- Branch equation: `delete_file` on a connected client with no matching
chunk is a no-op returning count 0. -/
theorem delete_file_no_match (m : VectorStoreManager) (s : Store) (F : String)
    (hc : m.clientConnected = true)
    (h : (s m.collection_name).filter (fun c => decide (c.file_id = some F)) = []) :
    delete_file m s F = (.ok 0, s) := by
  unfold delete_file
  rw [hc, h]
  rfl

/-- Branch equation: `delete_file` on a connected client with at least one
matching chunk filters them out of the bound collection and returns their
count. -/
theorem delete_file_match (m : VectorStoreManager) (s : Store) (F : String)
    (hc : m.clientConnected = true)
    (h : (s m.collection_name).filter (fun c => decide (c.file_id = some F)) ≠ []) :
    delete_file m s F =
      (.ok ((s m.collection_name).filter (fun c => decide (c.file_id = some F))).length,
        fun n =>
          if n = m.collection_name then
            (s m.collection_name).filter (fun c => !decide (c.file_id = some F))
          else s n) := by
  have hemp : ((s m.collection_name).filter
      (fun c => decide (c.file_id = some F))).isEmpty = false := by
    simpa [List.isEmpty_iff] using h
  unfold delete_file
  rw [hc, hemp]
  rfl

/-! ## C3: empty roster short-circuits the pipeline -/

/-- C3. When the agent roster is empty, `process_query` returns the fixed
no-agents advisory with the `System` label and no sources, and the invoked
stage trace is empty — Router, Specialist and Auditor (and hence the
completion service) are never called: the result does not depend on any of
the three stage functions. -/
theorem process_query_empty_roster
    (route : UserQuery → Except Err RoutingDecision)
    (draftFn : UserQuery → RoutingDecision → Option String → Except Err AgentResponse)
    (audit : UserQuery → AgentResponse → Except Err AuditResult)
    (query_text user_role : String) (agent_id : Option String) :
    process_query 0 route draftFn audit query_text user_role agent_id =
      (.ok { final_answer := NO_AGENTS_MESSAGE, agent_name := "System", sources := [] },
        []) := rfl

/-! ## C10: the caller-supplied agent id has no effect -/

/-- C10. The optional target-agent identifier passed to `process_query` is
only logged; two calls differing only in it perform the same stages (same
trace) and return the same result — in particular the specialist input is
always derived from the router's `routing.agent_id`, never from the caller's
argument. -/
theorem process_query_agent_id_irrelevant (agentCount : Nat)
    (route : UserQuery → Except Err RoutingDecision)
    (draftFn : UserQuery → RoutingDecision → Option String → Except Err AgentResponse)
    (audit : UserQuery → AgentResponse → Except Err AuditResult)
    (query_text user_role : String) (aid₁ aid₂ : Option String) :
    process_query agentCount route draftFn audit query_text user_role aid₁ =
      process_query agentCount route draftFn audit query_text user_role aid₂ := rfl

/-! ## C4: delete_file removes exactly the chunks of the given file id -/

/-- C4. On a connected store, `delete_file F` returns the number of chunks of
the bound collection whose `file_id` metadata is `F` (0, not an error, when
none match), the collection afterwards holds exactly the chunks whose
`file_id` is not `F` (chunks of every other file identifier survive), every
other collection is untouched, and an immediately repeated `delete_file F`
returns 0. -/
theorem delete_file_exact (m : VectorStoreManager) (s : Store) (F : String)
    (hc : m.clientConnected = true) :
    (delete_file m s F).1 =
        .ok ((s m.collection_name).filter (fun c => decide (c.file_id = some F))).length
    ∧ (delete_file m s F).2 m.collection_name =
        (s m.collection_name).filter (fun c => !decide (c.file_id = some F))
    ∧ (∀ n, n ≠ m.collection_name → (delete_file m s F).2 n = s n)
    ∧ (delete_file m (delete_file m s F).2 F).1 = .ok 0 := by
  by_cases h : (s m.collection_name).filter (fun c => decide (c.file_id = some F)) = []
  · have ed := delete_file_no_match m s F hc h
    refine ⟨?_, ?_, ?_, ?_⟩
    · rw [ed, h]
      rfl
    · rw [ed]
      exact (filter_not_eq_self_of_filter_eq_nil _ _ h).symm
    · intro n _
      rw [ed]
    · rw [ed]
      rw [delete_file_no_match m s F hc h]
  · have ed := delete_file_match m s F hc h
    have hcoll : (delete_file m s F).2 m.collection_name =
        (s m.collection_name).filter (fun c => !decide (c.file_id = some F)) := by
      rw [ed]
      exact if_pos rfl
    refine ⟨?_, hcoll, ?_, ?_⟩
    · rw [ed]
    · intro n hn
      rw [ed]
      exact if_neg hn
    · have h2 : ((delete_file m s F).2 m.collection_name).filter
          (fun c => decide (c.file_id = some F)) = [] := by
        rw [hcoll]
        exact filter_of_filter_not_eq_nil _ _
      rw [delete_file_no_match m _ F hc h2]

/-- Concrete run of `delete_file_exact`: a collection holding two chunks of
file `f1` and one of `f2`; deleting `f1` reports 2, keeps exactly the `f2`
chunk, and a second delete reports 0. -/
theorem delete_file_exact_witness :
    ((VectorStoreManager.create (some "a1") true).clientConnected = true)
    ∧ ((delete_file (VectorStoreManager.create (some "a1") true)
          (fun _ => [⟨"x", "data/uploads/u_f.txt", some "f1", some "f.txt"⟩,
                     ⟨"y", "data/uploads/u_f.txt", some "f1", some "f.txt"⟩,
                     ⟨"z", "data/uploads/v_g.txt", some "f2", some "g.txt"⟩]) "f1").1 =
        .ok 2) := by
  have h := delete_file_exact (VectorStoreManager.create (some "a1") true)
    (fun _ => [⟨"x", "data/uploads/u_f.txt", some "f1", some "f.txt"⟩,
               ⟨"y", "data/uploads/u_f.txt", some "f1", some "f.txt"⟩,
               ⟨"z", "data/uploads/v_g.txt", some "f2", some "g.txt"⟩]) "f1" (by rfl)
  refine ⟨by rfl, ?_⟩
  rw [h.1]
  rfl

/-! ## Further helper lemmas -/

theorem string_append_cancel_left {a b c : String} (h : a ++ b = a ++ c) : b = c := by
  have hd := congrArg String.data h
  simp only [String.data_append] at hd
  exact String.ext (List.append_cancel_left hd)

/-- Branch equation: `ingest_file` raises when the Chroma client is absent. -/
theorem ingest_file_not_connected (loader : String → List Chunk)
    (splitter : Nat → Nat → List Chunk → List Chunk) (m : VectorStoreManager)
    (s : Store) (filepath : String) (fe : Bool) (fid : Option String)
    (hc : m.clientConnected = false) :
    ingest_file loader splitter m s filepath fe fid = (.error .storeUnavailable, s) := by
  unfold ingest_file
  rw [hc]
  rfl

/-- Branch equation: `ingest_file` on a connected client whose loader finds no
documents returns Python `None` and leaves the store unchanged. -/
theorem ingest_file_empty_load (loader : String → List Chunk)
    (splitter : Nat → Nat → List Chunk → List Chunk) (m : VectorStoreManager)
    (s : Store) (filepath : String) (fid : Option String)
    (hc : m.clientConnected = true) (hd : loader filepath = []) :
    ingest_file loader splitter m s filepath true fid = (.ok none, s) := by
  unfold ingest_file
  rw [hc, hd]
  rfl

/-- Branch equation: a completed `ingest_file` with a truthy file id splits the
loaded documents, tags every split, appends them to the bound collection, and
returns the split count. -/
theorem ingest_file_run (loader : String → List Chunk)
    (splitter : Nat → Nat → List Chunk → List Chunk) (m : VectorStoreManager)
    (s : Store) (filepath fid : String)
    (hc : m.clientConnected = true) (hfid : fid ≠ "") (hd : loader filepath ≠ []) :
    ingest_file loader splitter m s filepath true (some fid) =
      (.ok (some (splitter CHUNK_SIZE CHUNK_OVERLAP (loader filepath)).length),
        fun n =>
          if n = m.collection_name then
            s m.collection_name ++
              (splitter CHUNK_SIZE CHUNK_OVERLAP (loader filepath)).map (tagChunk fid filepath)
          else s n) := by
  have hne : (loader filepath).isEmpty = false := by
    simpa [List.isEmpty_iff] using hd
  have ht : pyTruthyStr (some fid) = true := by
    simp [pyTruthyStr, hfid]
  unfold ingest_file
  rw [hc, hne, ht]
  rfl

/-- `ingest_file` never writes outside the manager's bound collection. -/
theorem ingest_file_frame (loader : String → List Chunk)
    (splitter : Nat → Nat → List Chunk → List Chunk) (m : VectorStoreManager)
    (s : Store) (filepath : String) (fe : Bool) (fid : Option String) (name : String)
    (hn : name ≠ m.collection_name) :
    (ingest_file loader splitter m s filepath fe fid).2 name = s name := by
  unfold ingest_file
  cases hc : m.clientConnected with
  | false => rfl
  | true =>
    cases fe with
    | false => rfl
    | true =>
      cases he : (loader filepath).isEmpty with
      | true => rfl
      | false => exact if_neg hn

/-- `delete_file` never writes outside the manager's bound collection. -/
theorem delete_file_frame (m : VectorStoreManager) (s : Store) (fid : String)
    (name : String) (hn : name ≠ m.collection_name) :
    (delete_file m s fid).2 name = s name := by
  unfold delete_file
  cases hc : m.clientConnected with
  | false => rfl
  | true =>
    cases he : ((s m.collection_name).filter
        (fun c => decide (c.file_id = some fid))).isEmpty with
    | true => rfl
    | false => exact if_neg hn

/-- `retrieve` reads only the manager's bound collection. -/
theorem retrieve_own_collection (search : List Chunk → String → Nat → List Chunk)
    (m : VectorStoreManager) (s₁ s₂ : Store) (q : String)
    (h : s₁ m.collection_name = s₂ m.collection_name) :
    retrieve search m s₁ q = retrieve search m s₂ q := by
  unfold retrieve
  rw [h]

/-- When the search engine returns members of the collection it is given,
every retrieved chunk is a member of the manager's bound collection. -/
theorem retrieve_subset (search : List Chunk → String → Nat → List Chunk)
    (hsearch : ∀ cs q k, ∀ c ∈ search cs q k, c ∈ cs)
    (m : VectorStoreManager) (s : Store) (q : String) (cs : List Chunk)
    (h : retrieve search m s q = .ok cs) :
    ∀ ch ∈ cs, ch ∈ s m.collection_name := by
  intro ch hch
  unfold retrieve at h
  by_cases hc : m.clientConnected = true
  · rw [if_pos hc] at h
    injection h with h2
    rw [← h2] at hch
    exact hsearch _ _ _ ch hch
  · rw [if_neg hc] at h
    exact Except.noConfusion h

/-! ## C5: ingest_file splits, tags and counts -/

/-- C5. A completed `ingest_file(filepath, fileId)` call (connected client,
existing file, truthy file id, non-empty load) splits the loaded text with the
fixed parameters `CHUNK_SIZE = 1000` and `CHUNK_OVERLAP = 200`, tags every
resulting chunk with the file id and the source filename before appending it
to the instance's bound collection, and returns the number of chunks
inserted. -/
theorem ingest_file_tags_and_counts (loader : String → List Chunk)
    (splitter : Nat → Nat → List Chunk → List Chunk) (m : VectorStoreManager)
    (s : Store) (filepath fid : String)
    (hc : m.clientConnected = true) (hfid : fid ≠ "") (hd : loader filepath ≠ []) :
    CHUNK_SIZE = 1000 ∧ CHUNK_OVERLAP = 200
    ∧ (ingest_file loader splitter m s filepath true (some fid)).1 =
        .ok (some (splitter CHUNK_SIZE CHUNK_OVERLAP (loader filepath)).length)
    ∧ (ingest_file loader splitter m s filepath true (some fid)).2 m.collection_name =
        s m.collection_name ++
          (splitter CHUNK_SIZE CHUNK_OVERLAP (loader filepath)).map (tagChunk fid filepath)
    ∧ ∀ c ∈ (splitter CHUNK_SIZE CHUNK_OVERLAP (loader filepath)).map (tagChunk fid filepath),
        c.file_id = some fid ∧ c.source_file = some (os_path_basename filepath) := by
  have ed := ingest_file_run loader splitter m s filepath fid hc hfid hd
  refine ⟨rfl, rfl, ?_, ?_, ?_⟩
  · rw [ed]
  · rw [ed]
    exact if_pos rfl
  · intro c hcmem
    obtain ⟨d, _, rfl⟩ := List.mem_map.mp hcmem
    exact ⟨rfl, rfl⟩

/-- Concrete run of `ingest_file_tags_and_counts`: one loaded document kept as
one chunk; the call reports 1 inserted chunk. -/
theorem ingest_file_tags_and_counts_witness :
    ((VectorStoreManager.create (some "a1") true).clientConnected = true)
    ∧ ("f1" ≠ "")
    ∧ (witLoader "data/uploads/u1_doc.txt" ≠ [])
    ∧ (ingest_file witLoader witSplitter (VectorStoreManager.create (some "a1") true)
        emptyStore "data/uploads/u1_doc.txt" true (some "f1")).1 = .ok (some 1) := by
  have h := ingest_file_tags_and_counts witLoader witSplitter
    (VectorStoreManager.create (some "a1") true) emptyStore "data/uploads/u1_doc.txt" "f1"
    rfl (by decide) (by decide)
  refine ⟨rfl, by decide, by decide, ?_⟩
  rw [h.2.2.1]
  rfl

/-! ## C6: ingest_file failure modes -/

/-- C6 counterexample. On a connected client, a file that loads to no
documents makes `ingest_file` return Python `None` (the early `return` after
printing) — it does not raise any error, so the claim that it fails with an
`EmptyDocument` error is false on this input. -/
theorem ingest_file_empty_doc_counterexample :
    (ingest_file emptyLoader witSplitter (VectorStoreManager.create (some "a1") true)
        emptyStore "data/uploads/f.txt" true (some "f1")).1 = .ok none
    ∧ ((Except.ok none : Except Err (Option Nat)) ≠ .error .emptyDocument) := by
  refine ⟨rfl, ?_⟩
  intro h
  exact Except.noConfusion h

/-- C6 amended. `ingest_file` raises `StoreUnavailable` (a `ValueError`) when
the backing index client is not initialized; when no extractable text is found
it does not raise but returns no count at all (Python `None`), which remains
distinguishable from a successful ingestion returning a chunk count such as
`some 0`. -/
theorem ingest_file_failure_modes (loader : String → List Chunk)
    (splitter : Nat → Nat → List Chunk → List Chunk) (agent_id fid : Option String)
    (s : Store) (filepath : String) (fe : Bool)
    (hempty : loader filepath = []) :
    (ingest_file loader splitter (VectorStoreManager.create agent_id false) s filepath fe
        fid).1 = .error .storeUnavailable
    ∧ (ingest_file loader splitter (VectorStoreManager.create agent_id true) s filepath true
        fid).1 = .ok none
    ∧ (Option.none : Option Nat) ≠ some 0 := by
  refine ⟨?_, ?_, by decide⟩
  · rw [ingest_file_not_connected loader splitter _ s filepath fe fid rfl]
  · rw [ingest_file_empty_load loader splitter _ s filepath fid rfl hempty]

/-- Concrete run of `ingest_file_failure_modes`. -/
theorem ingest_file_failure_modes_witness :
    (emptyLoader "f.txt" = [])
    ∧ (ingest_file emptyLoader witSplitter (VectorStoreManager.create (some "a1") false)
        emptyStore "f.txt" true (some "f1")).1 = .error .storeUnavailable
    ∧ (ingest_file emptyLoader witSplitter (VectorStoreManager.create (some "a1") true)
        emptyStore "f.txt" true (some "f1")).1 = .ok none := by
  have h := ingest_file_failure_modes emptyLoader witSplitter (some "a1") (some "f1")
    emptyStore "f.txt" true rfl
  exact ⟨rfl, h.1, h.2.1⟩

/-! ## C1: per-agent retrieval isolation -/

/-- C1. Every `VectorStoreManager` is bound at construction to exactly one
collection — the agent-scoped name for a (truthy) agent id, the single default
name otherwise — and distinct agent ids yield distinct collections. No
operation reads or writes any other collection: `ingest_file` and
`delete_file` leave every foreign collection unchanged and `retrieve` depends
only on the bound collection. Consequently, when the similarity engine
returns chunks of the collection it is handed, a retrieval scoped to agent
`A` after any ingestion into agent `B`'s collection only returns chunks that
were already in `A`'s collection — never a chunk ingested into `B`'s. -/
theorem per_agent_isolation (A B : String)
    (search : List Chunk → String → Nat → List Chunk)
    (hA : A ≠ "") (hB : B ≠ "") (hAB : A ≠ B)
    (hsearch : ∀ cs q k, ∀ c ∈ search cs q k, c ∈ cs) :
    (∀ conn, (VectorStoreManager.create (some A) conn).collection_name = "agent_" ++ A)
    ∧ (∀ conn, (VectorStoreManager.create none conn).collection_name = "nexus_mind_docs")
    ∧ (VectorStoreManager.create (some A) true).collection_name ≠
        (VectorStoreManager.create (some B) true).collection_name
    ∧ (∀ loader splitter s filepath fe fid name,
        name ≠ (VectorStoreManager.create (some B) true).collection_name →
        (ingest_file loader splitter (VectorStoreManager.create (some B) true) s filepath fe
            fid).2 name = s name)
    ∧ (∀ s fid name, name ≠ (VectorStoreManager.create (some B) true).collection_name →
        (delete_file (VectorStoreManager.create (some B) true) s fid).2 name = s name)
    ∧ (∀ s₁ s₂ q, s₁ (VectorStoreManager.create (some A) true).collection_name =
          s₂ (VectorStoreManager.create (some A) true).collection_name →
        retrieve search (VectorStoreManager.create (some A) true) s₁ q =
          retrieve search (VectorStoreManager.create (some A) true) s₂ q)
    ∧ (∀ s loader splitter filepath fe fid q cs,
        retrieve search (VectorStoreManager.create (some A) true)
            (ingest_file loader splitter (VectorStoreManager.create (some B) true) s filepath
                fe fid).2 q = .ok cs →
        ∀ ch ∈ cs, ch ∈ s (VectorStoreManager.create (some A) true).collection_name) := by
  have hnameA : ∀ conn,
      (VectorStoreManager.create (some A) conn).collection_name = "agent_" ++ A := by
    intro conn
    simp [VectorStoreManager.create, pyTruthyStr, hA]
  have hnameB : ∀ conn,
      (VectorStoreManager.create (some B) conn).collection_name = "agent_" ++ B := by
    intro conn
    simp [VectorStoreManager.create, pyTruthyStr, hB]
  have hdist : (VectorStoreManager.create (some A) true).collection_name ≠
      (VectorStoreManager.create (some B) true).collection_name := by
    rw [hnameA, hnameB]
    intro h
    exact hAB (string_append_cancel_left h)
  refine ⟨hnameA, fun conn => rfl, hdist, ?_, ?_, ?_, ?_⟩
  · intro loader splitter s filepath fe fid name hn
    exact ingest_file_frame loader splitter _ s filepath fe fid name hn
  · intro s fid name hn
    exact delete_file_frame _ s fid name hn
  · intro s₁ s₂ q h
    exact retrieve_own_collection search _ s₁ s₂ q h
  · intro s loader splitter filepath fe fid q cs hret ch hch
    have hframe := ingest_file_frame loader splitter
      (VectorStoreManager.create (some B) true) s filepath fe fid
      (VectorStoreManager.create (some A) true).collection_name hdist
    have hmem := retrieve_subset search hsearch (VectorStoreManager.create (some A) true)
      _ q cs hret ch hch
    rw [hframe] at hmem
    exact hmem

/-- Concrete instantiation of `per_agent_isolation` at agents `a` and `b` with
a take-first search engine: their collections are distinct. -/
theorem per_agent_isolation_witness :
    (VectorStoreManager.create (some "a") true).collection_name ≠
      (VectorStoreManager.create (some "b") true).collection_name :=
  (per_agent_isolation "a" "b" takeSearch (by decide) (by decide) (by decide)
    (fun cs q k c hc => List.take_subset k cs hc)).2.2.1

/-! ## C7: a successful audit result is well formed -/

/-- C7. Every successful `audit_response` call yields a verdict whose
`final_answer` is non-empty regardless of `is_safe`; when `is_safe` is true
the final answer is the original draft, and when it is false the feedback
field is populated with the explanation. -/
theorem audit_success_wellformed (completion : String → String → Option AuditResult)
    (q : UserQuery) (agent_response : AgentResponse) (r : AuditResult)
    (h : audit_response completion q agent_response = .ok r) :
    r.final_answer ≠ ""
    ∧ (r.is_safe = true → r.final_answer = agent_response.answer)
    ∧ (r.is_safe = false → r.feedback ≠ none) := by
  unfold audit_response at h
  cases hr : completion q.query_text agent_response.answer with
  | none =>
    rw [hr] at h
    exact Except.noConfusion h
  | some a =>
    rw [hr] at h
    change (if auditWellFormed agent_response.answer a = true then Except.ok a
      else Except.error Err.auditFailure) = Except.ok r at h
    by_cases hw : auditWellFormed agent_response.answer a = true
    · rw [if_pos hw] at h
      injection h with h2
      subst h2
      simp only [auditWellFormed, Bool.and_eq_true] at hw
      obtain ⟨h1, h2'⟩ := hw
      refine ⟨?_, ?_, ?_⟩
      · simpa using h1
      · intro hs
        rw [hs] at h2'
        simpa using h2'
      · intro hs
        rw [hs] at h2'
        change a.feedback.isSome = true at h2'
        exact Option.ne_none_iff_isSome.mpr h2'
    · rw [if_neg hw] at h
      exact Except.noConfusion h

/-- Concrete run of `audit_success_wellformed`: an approving audit echoing the
draft. -/
theorem audit_success_wellformed_witness :
    ((⟨true, "ans", none⟩ : AuditResult).final_answer ≠ "")
    ∧ ((⟨true, "ans", none⟩ : AuditResult).is_safe = true →
        (⟨true, "ans", none⟩ : AuditResult).final_answer = "ans")
    ∧ ((⟨true, "ans", none⟩ : AuditResult).is_safe = false →
        (⟨true, "ans", none⟩ : AuditResult).feedback ≠ none) := by
  have h := audit_success_wellformed okCompletion ⟨"q", "employee"⟩
    ⟨"ans", [], "HR_Specialist"⟩ ⟨true, "ans", none⟩ (by rfl)
  exact ⟨h.1, h.2.1, h.2.2⟩

/-! ## C2: audit failure aborts the pipeline without falling back -/

/-- C2. When routing and drafting succeed but the completion service cannot
produce a well-formed `AuditResult` (its output fails to parse or violates
the schema), `process_query` fails with `AuditFailure` after invoking all
three stages, and no result — in particular not the unaudited draft — is
returned to the caller. -/
theorem process_query_audit_failure (agentCount : Nat)
    (route : UserQuery → Except Err RoutingDecision)
    (draftFn : UserQuery → RoutingDecision → Option String → Except Err AgentResponse)
    (completion : String → String → Option AuditResult)
    (query_text user_role : String) (agent_id : Option String)
    (routing : RoutingDecision) (agent_response : AgentResponse)
    (hn : agentCount ≠ 0)
    (hroute : route ⟨query_text, user_role⟩ = .ok routing)
    (hdraft : draftFn ⟨query_text, user_role⟩ routing routing.agent_id = .ok agent_response)
    (hmal : ∀ r, completion query_text agent_response.answer = some r →
        auditWellFormed agent_response.answer r = false) :
    process_query agentCount route draftFn (audit_response completion)
        query_text user_role agent_id =
      (.error .auditFailure, [.router, .specialist, .auditor])
    ∧ ∀ res, (process_query agentCount route draftFn (audit_response completion)
        query_text user_role agent_id).1 ≠ .ok res := by
  have haud : audit_response completion ⟨query_text, user_role⟩ agent_response =
      .error .auditFailure := by
    unfold audit_response
    cases hr : completion query_text agent_response.answer with
    | none => rfl
    | some r =>
      change (if auditWellFormed agent_response.answer r = true then Except.ok r
        else Except.error Err.auditFailure) = Except.error Err.auditFailure
      rw [hmal r hr]
      rfl
  have ed : process_query agentCount route draftFn (audit_response completion)
      query_text user_role agent_id =
      (.error .auditFailure, [.router, .specialist, .auditor]) := by
    unfold process_query
    rw [if_neg hn]
    rw [hroute]
    simp only []
    rw [hdraft]
    simp only []
    rw [haud]
  refine ⟨ed, ?_⟩
  intro res hres
  rw [ed] at hres
  exact Except.noConfusion hres

/-- Concrete run of `process_query_audit_failure`: one agent in the roster,
routing and drafting succeed, the audit completion output never parses; the
pipeline surfaces `AuditFailure`. -/
theorem process_query_audit_failure_witness :
    process_query 1 routeW draftW (audit_response noneCompletion) "q" "employee" none =
      (.error .auditFailure, [.router, .specialist, .auditor]) :=
  (process_query_audit_failure 1 routeW draftW noneCompletion "q" "employee" none
    routingHR draftResp (by decide) rfl rfl (fun r h => Option.noConfusion h)).1

/-! ## C8: the draft's attached sources -/

/-- C8 counterexample. The specialist's `sources` are built from the loader
metadata `source` — the stored file path — not from the `source_file` tag (the
original filename) that ingestion attaches to every chunk. Here the single
retrieved chunk was ingested from the file named `doc.txt` (its `source_file`
tag), yet the returned sources list is `["data/uploads/u1_doc.txt"]` and does
not contain `doc.txt`: the list fails to contain the source filename of a
retrieved chunk. -/
theorem specialist_sources_counterexample :
    generate_response takeSearch noPrompt constLLM oneChunkStore true
        ⟨"q", "employee"⟩ routingHR (some "a1") =
      .ok ⟨"answer", ["data/uploads/u1_doc.txt"], "HR_Specialist"⟩
    ∧ leakChunk.source_file = some "doc.txt"
    ∧ ¬ ("doc.txt" ∈ (["data/uploads/u1_doc.txt"] : List String)) := by
  refine ⟨rfl, rfl, ?_⟩
  decide

/-- C8 amended. For every successful draft call, the attached sources are
exactly the distinct `source` metadata values (the stored file paths recorded
by the loader, not the `source_file` basenames) of the chunks that were fed
to the model: the list has no duplicates and contains a string if and only if
some retrieved chunk carries it as its `source`; its order carries no
significance. -/
theorem specialist_sources_amended (search : List Chunk → String → Nat → List Chunk)
    (agentPromptOf : String → Option String) (llm : String → String → String)
    (s : Store) (q : UserQuery) (routing : RoutingDecision) (agent_id : Option String)
    (resp : AgentResponse)
    (h : generate_response search agentPromptOf llm s true q routing agent_id = .ok resp) :
    resp.sources.Nodup
    ∧ ∀ x, x ∈ resp.sources ↔
        ∃ c ∈ search
            (s (VectorStoreManager.create
                (if pyTruthyStr agent_id then agent_id else none) true).collection_name)
            q.query_text 3,
          c.source = x := by
  unfold generate_response at h
  rw [if_pos rfl] at h
  injection h with h2
  subst h2
  constructor
  · exact List.nodup_dedup _
  · intro x
    simp [List.mem_dedup, List.mem_map]

/-- Concrete run of `specialist_sources_amended` on the single-chunk store. -/
theorem specialist_sources_amended_witness :
    (["data/uploads/u1_doc.txt"] : List String).Nodup :=
  (specialist_sources_amended takeSearch noPrompt constLLM oneChunkStore
    ⟨"q", "employee"⟩ routingHR (some "a1")
    ⟨"answer", ["data/uploads/u1_doc.txt"], "HR_Specialist"⟩ (by rfl)).1

/-! ## C9: ingestion failure does not roll back the upload -/

/-- C9. In the upload route, the file row is committed before ingestion is
attempted and the ingestion call sits in a `try/except` that only logs: when
`ingest_file` fails with any error, the endpoint still returns the recorded
file response and the committed `FileRecord` remains in the database. -/
theorem upload_survives_ingest_failure (loader : String → List Chunk)
    (splitter : Nat → Nat → List Chunk → List Chunk) (conn : Bool)
    (fn : String) (sz : Nat) (file_id agent_id : String) (st : UploadState) (e : Err)
    (hfail : (ingest_file loader splitter (VectorStoreManager.create (some agent_id) conn)
        st.store (UPLOAD_DIR ++ "/" ++ file_id ++ "_" ++ fn) true (some file_id)).1 =
        .error e) :
    (upload_file_to_agent loader splitter conn true (some (fn, sz)) file_id agent_id st).1 =
        .ok ⟨file_id, fn, sz⟩
    ∧ (⟨file_id, fn, UPLOAD_DIR ++ "/" ++ file_id ++ "_" ++ fn, sz, agent_id⟩ : FileRecord) ∈
        (upload_file_to_agent loader splitter conn true (some (fn, sz)) file_id
            agent_id st).2.dbFiles := by
  refine ⟨rfl, ?_⟩
  exact List.mem_append_right st.dbFiles (List.mem_singleton_self _)

/-- Concrete run of `upload_survives_ingest_failure`: the vector store client
is down, ingestion raises `StoreUnavailable`, yet the upload returns the
recorded file. -/
theorem upload_survives_ingest_failure_witness :
    (upload_file_to_agent emptyLoader witSplitter false true (some ("doc.txt", 5))
        "u1" "a1" ⟨[], emptyStore⟩).1 = .ok ⟨"u1", "doc.txt", 5⟩ :=
  (upload_survives_ingest_failure emptyLoader witSplitter false "doc.txt" 5 "u1" "a1"
    ⟨[], emptyStore⟩ .storeUnavailable rfl).1

end NexusMind
